import Mathlib

/-
Shallow embedding of the bevy-solana-client repository (the RPC client in
src/rpc_client.rs and bevy-solana-client-common/src/rpc_client.rs, and the
async wallet bridge in src/wasm_client.rs).  JSON values are modelled by an
inductive; numbers appearing on this wire are unsigned 64-bit, modelled as Nat.
-/

namespace BevySolana

/-- Model of a serde_json::Value as it appears on this client's wire. -/
inductive Json where
  | null
  | bool (b : Bool)
  | num (n : Nat)
  | str (s : String)
  | arr (xs : List Json)
  | obj (fields : List (String × Json))

/-- Field lookup on a JSON object (serde takes the declared field by name and
ignores unknown fields; a non-object has no fields). -/
def Json.getField (j : Json) (k : String) : Option Json :=
  match j with
  | .obj fs => fs.lookup k
  | _ => none

/-- serde deserialization of String. -/
def decodeString : Json → Option String
  | .str s => some s
  | _ => none

/-- serde deserialization of u64. -/
def decodeU64 : Json → Option Nat
  | .num n => some n
  | _ => none

/-- serde deserialization of bool. -/
def decodeBool : Json → Option Bool
  | .bool b => some b
  | _ => none

/-- serde deserialization of Option of T: JSON null becomes None, anything else
must decode as T. -/
def decodeOption (dec : Json → Option T) : Json → Option (Option T)
  | .null => some none
  | j => (dec j).map some

/-! ## base58 (the bs58 crate, Bitcoin alphabet) -/

def b58Alphabet : List Char :=
  "123456789ABCDEFGHJKLMNPQRSTUVWXYZabcdefghijkmnopqrstuvwxyz".toList

/-- Value of one base58 digit character, none for a character outside the
alphabet. -/
def b58DigitVal (c : Char) : Option Nat :=
  b58Alphabet.indexOf? c

/-- Big-endian base-b digit expansion of n, driven by fuel (enough fuel gives
the exact expansion; the callers always supply enough). -/
def natToDigitsBE (b : Nat) : Nat → Nat → List Nat
  | 0, _ => []
  | fuel + 1, n => if n = 0 then [] else natToDigitsBE b fuel (n / b) ++ [n % b]

/-- bs58 decode: every character must be in the alphabet; leading ones become
leading zero bytes; the digit string is read as a base-58 number emitted as
big-endian bytes. -/
def b58Decode (s : String) : Option (List Nat) := do
  let ds ← s.toList.mapM b58DigitVal
  let zeros := (s.toList.takeWhile (fun c => c = '1')).length
  let n := ds.foldl (fun acc d => acc * 58 + d) 0
  pure (List.replicate zeros 0 ++ natToDigitsBE 256 ds.length n)

/-- bs58 encode: leading zero bytes become leading ones; the byte string is
read as a base-256 number emitted as base-58 digits. -/
def b58Encode (bs : List Nat) : String :=
  let zeros := (bs.takeWhile (fun b => b = 0)).length
  let n := bs.foldl (fun acc b => acc * 256 + b) 0
  let digits := natToDigitsBE 58 (2 * bs.length) n
  String.mk (List.replicate zeros '1' ++ digits.map (fun d => b58Alphabet.getD d '1'))

/-! ## base64 (BASE64_STANDARD engine: standard alphabet, canonical padding,
no trailing garbage bits) -/

/-- Value of one base64 character in the standard alphabet. -/
def b64CharVal (c : Char) : Option Nat :=
  if 'A' ≤ c ∧ c ≤ 'Z' then some (c.toNat - 'A'.toNat)
  else if 'a' ≤ c ∧ c ≤ 'z' then some (c.toNat - 'a'.toNat + 26)
  else if '0' ≤ c ∧ c ≤ '9' then some (c.toNat - '0'.toNat + 52)
  else if c = '+' then some 62
  else if c = '/' then some 63
  else none

/-- Decode base64 text four characters at a time; padding is only legal in the
final quantum and the unused trailing bits must be zero, as in the standard
engine's strict decode. -/
def b64DecodeChars : List Char → Option (List Nat)
  | [] => some []
  | [c1, c2, '=', '='] => do
      let v1 ← b64CharVal c1
      let v2 ← b64CharVal c2
      if v2 % 16 = 0 then some [v1 * 4 + v2 / 16] else none
  | [c1, c2, c3, '='] => do
      let v1 ← b64CharVal c1
      let v2 ← b64CharVal c2
      let v3 ← b64CharVal c3
      if v3 % 4 = 0 then some [v1 * 4 + v2 / 16, (v2 % 16) * 16 + v3 / 4] else none
  | c1 :: c2 :: c3 :: c4 :: rest => do
      let v1 ← b64CharVal c1
      let v2 ← b64CharVal c2
      let v3 ← b64CharVal c3
      let v4 ← b64CharVal c4
      let tail ← b64DecodeChars rest
      pure ([v1 * 4 + v2 / 16, (v2 % 16) * 16 + v3 / 4, (v3 % 4) * 64 + v4] ++ tail)
  | _ => none

/-- BASE64_STANDARD.decode on a string. -/
def b64Decode (s : String) : Option (List Nat) :=
  b64DecodeChars s.toList

/-! ## Addresses (solana_sdk Pubkey) -/

/-- A 32-byte public identifier; bytes is the fixed-size byte form. -/
structure Pubkey where
  bytes : List Nat
deriving Repr, DecidableEq

/-- Pubkey::from_str: reject over-long text, base58-decode, require exactly
32 bytes. -/
def pubkeyFromStr (s : String) : Option Pubkey :=
  if s.length > 44 then none
  else match b58Decode s with
    | none => none
    | some bs => if bs.length = 32 then some ⟨bs⟩ else none

/-- Pubkey::to_string: base58 text form. -/
def Pubkey.toBase58 (p : Pubkey) : String :=
  b58Encode p.bytes

/-! ## Envelope codec (RpcRequest / RpcResponse in rpc_client.rs) -/

/-- One outgoing JSON-RPC call; params is always a serde_json::Value here. -/
structure RpcRequest where
  jsonrpc : String
  method : String
  id : Nat
  params : Json

/-- RpcRequest::new: fixed protocol tag "2.0" and id 1. -/
def RpcRequest.new (method : String) (params : Json) : RpcRequest :=
  { jsonrpc := "2.0", method := method, id := 1, params := params }

/-- Serialization of the request envelope, as derived serde::Serialize emits
the four fields. -/
def RpcRequest.toJson (r : RpcRequest) : Json :=
  .obj [("jsonrpc", .str r.jsonrpc), ("method", .str r.method),
        ("id", .num r.id), ("params", r.params)]

/-- One raw decoded response envelope. -/
structure RpcResponse (T : Type) where
  jsonrpc : String
  result : Option T
  error : Option Json
  id : Nat

/-- serde deserialization of RpcResponse of T from a JSON body: jsonrpc and id
are required, result and error are optional (absent or null gives none),
unknown fields are ignored. -/
def decodeRpcResponse (dec : Json → Option T) (j : Json) : Option (RpcResponse T) := do
  let jsonrpc ← (j.getField "jsonrpc").bind decodeString
  let result ← match j.getField "result" with
    | none => some none
    | some v => decodeOption dec v
  let error ← match j.getField "error" with
    | none => some none
    | some v => decodeOption some v
  let id ← (j.getField "id").bind decodeU64
  pure { jsonrpc := jsonrpc, result := result, error := error, id := id }

/-- The {value: T} wrapper used by balance, blockhash and account lookups. -/
structure RpcResult (T : Type) where
  value : T

/-- serde deserialization of RpcResult of T: the value field is required. -/
def decodeRpcResult (dec : Json → Option T) (j : Json) : Option (RpcResult T) := do
  let v ← (j.getField "value").bind dec
  pure { value := v }

/-- The typed failures of a client call, one constructor per distinct error
the Rust code can produce on this path. -/
inductive RpcError where
  /-- anyhow error "rpc error: ..." carrying the envelope's error payload. -/
  | protocolError (details : Json)
  /-- context "no result": neither result nor error present. -/
  | noResult
  /-- serde_json::from_str failed to match the envelope shape. -/
  | malformedEnvelope
  /-- context "could not find account": explicit null account value. -/
  | accountNotFound
  /-- context "could not send transaction" wrapped around an inner failure. -/
  | sendTxFailed (inner : RpcError)
  /-- context "could not decode blockhash": blockhash text is not base58. -/
  | blockhashNotBase58
  /-- anyhow error from try_into: decoded blockhash length is not 32. -/
  | blockhashWrongLength (n : Nat)

/-- The tail of rpc_post after deserialization: a non-null error field fails
with the protocol error, a missing result fails with "no result", otherwise
the result is unwrapped. -/
def rpcUnwrap (resp : RpcResponse T) : Except RpcError T :=
  match resp.error with
  | some e => .error (.protocolError e)
  | none =>
    match resp.result with
    | some r => .ok r
    | none => .error .noResult

/-- A transport maps the serialized request envelope to the JSON body of the
response (the mock/test transport of the spec; HTTP transports realize the
same contract). -/
def Transport : Type := Json → Json

/-- rpc_post: build the envelope via RpcRequest::new, send it through the
transport, deserialize the body as RpcResponse, then unwrap. -/
def rpcPost (dec : Json → Option T) (transport : Transport) (method : String)
    (params : Json) : Except RpcError T :=
  match decodeRpcResponse dec (transport (RpcRequest.new method params).toJson) with
  | none => .error .malformedEnvelope
  | some resp => rpcUnwrap resp

/-- rpc_post_expect_str: expect a plain string result. -/
def rpcPostExpectStr (transport : Transport) (method : String) (params : Json) :
    Except RpcError String :=
  rpcPost decodeString transport method params

/-- rpc_post_expect_result: expect a {value: T} wrapper and project value. -/
def rpcPostExpectResult (dec : Json → Option T) (transport : Transport)
    (method : String) (params : Json) : Except RpcError T :=
  (rpcPost (decodeRpcResult dec) transport method params).map (fun r => r.value)

/-! ## Typed decoders for account and blockhash payloads -/

/-- The wire account record of getAccountInfo / getProgramAccounts. -/
structure RpcAccountInfo where
  /-- The two-element encoding pair: base64 data text and the encoding tag. -/
  data : String × String
  executable : Bool
  lamports : Nat
  owner : String
  rentEpoch : Nat

/-- serde deserialization of RpcAccountInfo (camelCase field names, data is
an array of exactly two strings, every field required). -/
def decodeRpcAccountInfo (j : Json) : Option RpcAccountInfo := do
  let dataPair ← match j.getField "data" with
    | some (.arr [.str a, .str b]) => some (a, b)
    | _ => none
  let executable ← (j.getField "executable").bind decodeBool
  let lamports ← (j.getField "lamports").bind decodeU64
  let owner ← (j.getField "owner").bind decodeString
  let rentEpoch ← (j.getField "rentEpoch").bind decodeU64
  pure { data := dataPair, executable := executable, lamports := lamports,
         owner := owner, rentEpoch := rentEpoch }

/-- The native on-chain account value (solana_sdk Account). -/
structure Account where
  data : List Nat
  owner : Pubkey
  lamports : Nat
  rentEpoch : Nat
  executable : Bool

/-- The From RpcAccountInfo for Account conversion.  The Rust code calls
unwrap on the base64 decode of data[0] and on Pubkey::from_str of owner, so a
failure of either is a panic, not a returned value; none here models exactly
that panic. -/
def accountFromRpc (r : RpcAccountInfo) : Option Account := do
  let data ← b64Decode r.data.1
  let owner ← pubkeyFromStr r.owner
  pure { data := data, owner := owner, lamports := r.lamports,
         rentEpoch := r.rentEpoch, executable := r.executable }

/-- Result of an operation whose Rust body can also panic: ok and err mirror
the returned Result, panic marks a non-returning abort (an unwrap firing). -/
inductive Outcome (T : Type) where
  | ok (t : T)
  | err (e : RpcError)
  | panic

/-- The GetLatestBlockhash payload (camelCase field names). -/
structure GetLatestBlockhashPayload where
  blockhash : String
  lastValidBlockHeight : Nat

/-- serde deserialization of the blockhash payload. -/
def decodeGetLatestBlockhashPayload (j : Json) : Option GetLatestBlockhashPayload := do
  let blockhash ← (j.getField "blockhash").bind decodeString
  let h ← (j.getField "lastValidBlockHeight").bind decodeU64
  pure { blockhash := blockhash, lastValidBlockHeight := h }

/-! ## Operation facade (RpcClient methods) -/

/-- get_balance: note the params value is json![pubkey.to_string()], the bare
string, since the square brackets there delimit the macro invocation, not a
JSON array. -/
def get_balance (transport : Transport) (pubkey : Pubkey) : Except RpcError Nat :=
  rpcPostExpectResult decodeU64 transport "getBalance" (.str pubkey.toBase58)

/-- The request envelope get_balance hands to the transport. -/
def get_balance_sent_request (pubkey : Pubkey) : Json :=
  (RpcRequest.new "getBalance" (.str pubkey.toBase58)).toJson

/-- get_account: wrapped-result decode of an optional account record, a null
value fails with context "could not find account", and a present record goes
through the panicking From conversion. -/
def get_account (transport : Transport) (pubkey : Pubkey) : Outcome Account :=
  match rpcPostExpectResult (decodeOption decodeRpcAccountInfo) transport
      "getAccountInfo"
      (.arr [.str pubkey.toBase58, .obj [("encoding", .str "base64")]]) with
  | .error e => .err e
  | .ok none => .err .accountNotFound
  | .ok (some r) =>
    match accountFromRpc r with
    | some a => .ok a
    | none => .panic

/-- A signed transaction, represented by the byte sequence the external
serializer (bincode over solana-sdk types) produces for it; the spec treats
that serializer as an opaque externally-supplied capability. -/
structure Transaction where
  serialized : List Nat

/-- send_transaction: base58-encode the serialized transaction, post it, and
return the Ok string.  The Rust body shadows tx with the base58 text and
returns that shadowed tx, only logging the response resp. -/
def send_transaction (transport : Transport) (tx : Transaction) :
    Except RpcError String :=
  let txStr := b58Encode tx.serialized
  match rpcPostExpectStr transport "sendTransaction" (.arr [.str txStr]) with
  | .error e => .error (.sendTxFailed e)
  | .ok _resp => .ok txStr

/-- get_latest_blockhash: wrapped-result decode with finalized commitment,
then bs58-decode the blockhash text and require exactly 32 bytes via the
try_into to a 32-byte array. -/
def get_latest_blockhash (transport : Transport) : Except RpcError (List Nat) :=
  match rpcPostExpectResult decodeGetLatestBlockhashPayload transport
      "getLatestBlockhash" (.arr [.obj [("commitment", .str "finalized")]]) with
  | .error e => .error e
  | .ok resp =>
    match b58Decode resp.blockhash with
    | none => .error .blockhashNotBase58
    | some bs =>
      if bs.length = 32 then .ok bs else .error (.blockhashWrongLength bs.length)

/-! ## Async wallet bridge (src/wasm_client.rs) -/

/-- The completion event the detached connect task pushes: Result of String,
an address on success or an error message on failure. -/
inductive AsyncWalletEvent where
  | connectionCompleted (result : Except String String)

/-- The frame-loop events emitted through the bevy EventWriter. -/
inductive WalletEvent where
  | connectBtnClick
  | disconnectBtnClick
  | connected
  | disconnected
deriving DecidableEq

/-- The wallet resource payload. -/
structure WalletInfo where
  amount : Nat
  address : String
deriving DecidableEq

/-- The wallet resource. -/
structure Wallet where
  info : Option WalletInfo
deriving DecidableEq

instance : DecidableEq (Except String String) := fun a b =>
  match a, b with
  | .ok x, .ok y =>
    if h : x = y then .isTrue (by rw [h]) else .isFalse (by simp [h])
  | .ok _, .error _ => .isFalse (by simp)
  | .error _, .ok _ => .isFalse (by simp)
  | .error x, .error y =>
    if h : x = y then .isTrue (by rw [h]) else .isFalse (by simp [h])

instance : DecidableEq AsyncWalletEvent := fun a b =>
  match a, b with
  | .connectionCompleted x, .connectionCompleted y =>
    if h : x = y then .isTrue (by rw [h])
    else .isFalse (fun hc => h (by injection hc))

/-- The shared queue behind ASYNC_WALLET_EVENT_QUEUE is a Vec of events. -/
abbrev EventQueue : Type := List AsyncWalletEvent

/-- AsyncWalletEventQueue::push is Vec::push, appending at the back. -/
def queuePush (q : EventQueue) (e : AsyncWalletEvent) : EventQueue :=
  List.append q [e]

/-- AsyncWalletEventQueue::pop is Vec::pop, removing and returning the back
element. -/
def queuePop (q : EventQueue) : EventQueue × Option AsyncWalletEvent :=
  (List.dropLast q, List.getLast? q)

/-- Fuel-driven pop loop: keep calling AsyncWalletEventQueue::pop, collecting
the events in the order the consumer receives them, until pop reports empty
(enough fuel reaches quiescence; drainAll below supplies it). -/
def drainLoop : Nat → EventQueue → List AsyncWalletEvent
  | 0, _ => []
  | fuel + 1, q =>
    match (queuePop q).2 with
    | none => []
    | some e => e :: drainLoop fuel (queuePop q).1

/-- Popping until the queue reports empty: the order in which successive poll
invocations consume the queued events. -/
def drainAll (q : EventQueue) : List AsyncWalletEvent :=
  drainLoop q.length q

/-- One invocation of async_wallet_event_system: pop at most one event; a
successful connection stores fresh wallet info and emits Connected; a failed
one is only logged, emitting nothing and leaving the wallet unchanged.
Returns the queue and wallet afterwards and the list of emitted events. -/
def async_wallet_event_system (q : EventQueue) (w : Wallet) :
    EventQueue × Wallet × List WalletEvent :=
  match queuePop q with
  | (rest, some (.connectionCompleted res)) =>
    match res with
    | .ok address => (rest, ⟨some ⟨0, address⟩⟩, [.connected])
    | .error _err => (rest, w, [])
  | (rest, none) => (rest, w, [])

/-- k successive frame ticks of the polling system, tracking queue and
wallet. -/
def iterateSystem : Nat → EventQueue → Wallet → EventQueue × Wallet
  | 0, q, w => (q, w)
  | k + 1, q, w =>
    let s := async_wallet_event_system q w
    iterateSystem k s.1 s.2.1

/-! ## Concrete fixtures for the scenario theorems -/

/-- The all-zero 32-byte address (the system program id, base58 text of 32
ones). -/
def sysProgramPk : Pubkey := ⟨List.replicate 32 0⟩

/-- A well-formed success envelope around a given result payload. -/
def mkResultEnvelope (result : Json) : Json :=
  .obj [("jsonrpc", .str "2.0"), ("result", result), ("id", .num 1)]

/-- Mock transport answering getAccountInfo with an explicit null value. -/
def nullAccountTransport : Transport :=
  fun _ => mkResultEnvelope (.obj [("value", .null)])

/-- Mock transport echoing a fixed plain string result. -/
def echoStrTransport (s : String) : Transport :=
  fun _ => mkResultEnvelope (.str s)

/-- Mock transport answering getLatestBlockhash with the given blockhash text
and height. -/
def blockhashTransport (s : String) (height : Nat) : Transport :=
  fun _ => mkResultEnvelope (.obj [("value",
    .obj [("blockhash", .str s), ("lastValidBlockHeight", .num height)])])

/-- Mock transport answering getAccountInfo with an account whose base64 data
element is not valid base64. -/
def badBase64AccountTransport : Transport :=
  fun _ => mkResultEnvelope (.obj [("value", .obj [
    ("data", .arr [.str "!!!!", .str "base64"]),
    ("executable", .bool false),
    ("lamports", .num 5),
    ("owner", .str "11111111111111111111111111111111"),
    ("rentEpoch", .num 7)])])

/-! ## Theorems -/

/-- C2: for every decoded response envelope the unwrap step obeys the
three-case contract: a non-null error field fails with the protocol error
carrying its details even when a result is also present, absence of both
result and error fails with the malformed-envelope ("no result") error, and
otherwise the result is unwrapped and returned. -/
theorem C2_parse_response_three_cases {T : Type} (resp : RpcResponse T) :
    (∀ e, resp.error = some e → rpcUnwrap resp = .error (.protocolError e)) ∧
    (resp.error = none → resp.result = none → rpcUnwrap resp = .error .noResult) ∧
    (∀ r, resp.error = none → resp.result = some r → rpcUnwrap resp = .ok r) := by
  obtain ⟨jv, res, err, i⟩ := resp
  refine ⟨fun e he => ?_, fun he hr => ?_, fun r he hr => ?_⟩
  · simp only at he; subst he; rfl
  · simp only at he hr; subst he; subst hr; rfl
  · simp only at he hr; subst he; subst hr; rfl

theorem C2_parse_response_witness :
    rpcUnwrap { jsonrpc := "2.0", result := some 5, error := some (.str "boom"),
                id := 1 : RpcResponse Nat }
      = .error (.protocolError (.str "boom")) :=
  (C2_parse_response_three_cases _).1 _ rfl

/-- C6: for every address, when the transport answers getAccountInfo with an
explicit null value, get_account fails with the account-not-found error, an
outcome distinct from the protocol, no-result and malformed-envelope failures
and from the panic a decode failure produces. -/
theorem C6_null_account_is_account_not_found (pk : Pubkey) :
    get_account nullAccountTransport pk = .err .accountNotFound ∧
    (∀ j, RpcError.accountNotFound ≠ RpcError.protocolError j) ∧
    RpcError.accountNotFound ≠ RpcError.noResult ∧
    RpcError.accountNotFound ≠ RpcError.malformedEnvelope ∧
    (Outcome.err RpcError.accountNotFound : Outcome Account) ≠ .panic := by
  refine ⟨rfl, fun j h => ?_, fun h => ?_, fun h => ?_, fun h => ?_⟩ <;> cases h

theorem C6_null_account_witness :
    get_account nullAccountTransport sysProgramPk = .err .accountNotFound :=
  (C6_null_account_is_account_not_found sysProgramPk).1

/-- C1: the send_transaction scenario.  With a mock transport whose
sendTransaction response is the plain string "EchoedTxId123", the call on a
transaction serializing to the bytes [1, 2, 3] succeeds but returns "Ldp",
the client-side base58 serialization of the transaction, not the echoed
identifier: the Rust body shadows tx with the base58 text, logs resp and
returns the shadowed tx. -/
theorem C1_send_transaction_returns_serialization :
    send_transaction (echoStrTransport "EchoedTxId123") ⟨[1, 2, 3]⟩
        = .ok (b58Encode [1, 2, 3]) ∧
    b58Encode [1, 2, 3] = "Ldp" ∧
    ("Ldp" : String) ≠ "EchoedTxId123" := by
  refine ⟨rfl, rfl, ?_⟩
  decide

/-- C7: the request envelope built by get_balance carries a params field that
is the bare JSON string of the address text, not a one-element JSON array:
json![pubkey.to_string()] delimits the macro call with square brackets but
builds a plain string value. -/
theorem C7_get_balance_params_not_array :
    (get_balance_sent_request sysProgramPk).getField "params"
        = some (.str "11111111111111111111111111111111") ∧
    (∀ xs, Json.str "11111111111111111111111111111111" ≠ Json.arr xs) :=
  ⟨rfl, fun _ h => Json.noConfusion h⟩

/-- C8 counterexample: the id of an outgoing request envelope is not assigned
by the caller of the request-building operation; RpcRequest::new takes no id
argument and fixes id to 1 on every envelope it builds, whatever the caller
asked for. -/
theorem C8_id_fixed_by_builder_counterexample :
    (RpcRequest.new "getBalance" (.arr [.str "Addr123"])).id = 1 ∧
    (RpcRequest.new "getLatestBlockhash"
        (.arr [.obj [("commitment", .str "finalized")]])).id = 1 :=
  ⟨rfl, rfl⟩

/-- C8 amended: every outgoing request envelope carries the fixed constant
protocol version tag "2.0" and the fixed numeric id 1, both set by
RpcRequest::new itself. -/
theorem C8_request_constants (method : String) (params : Json) :
    (RpcRequest.new method params).jsonrpc = "2.0" ∧
    (RpcRequest.new method params).id = 1 :=
  ⟨rfl, rfl⟩

theorem C8_request_constants_witness :
    (RpcRequest.new "getBalance" (.str "Addr123")).jsonrpc = "2.0" ∧
    (RpcRequest.new "getBalance" (.str "Addr123")).id = 1 :=
  C8_request_constants "getBalance" (.str "Addr123")

/-- C3 counterexample: when the transport returns an account whose base64
data element "!!!!" is not valid base64, get_account ends in a panic (the
unwrap in the From conversion fires); the failure is a non-returning abort,
not a typed error value handed to the caller. -/
theorem C3_invalid_base64_panics_counterexample :
    get_account badBase64AccountTransport sysProgramPk = .panic ∧
    (∀ e, (Outcome.panic : Outcome Account) ≠ .err e) ∧
    (∀ a, (Outcome.panic : Outcome Account) ≠ .ok a) := by
  refine ⟨rfl, fun e h => ?_, fun a h => ?_⟩ <;> cases h

/-- C3 amended: for every account wire payload whose base64 data element is
not valid base64 or whose owner field is not valid address text, the From
conversion aborts with a panic (modelled as none) instead of producing an
account, so a corrupted payload never becomes a default or truncated account
— but the failure is a panic, not a typed error returned to the caller. -/
theorem C3_decode_failure_is_panic_never_default (r : RpcAccountInfo)
    (h : b64Decode r.data.1 = none ∨ pubkeyFromStr r.owner = none) :
    accountFromRpc r = none := by
  unfold accountFromRpc
  rcases h with h | h <;> rw [h] <;> [rfl; skip]
  cases hb : b64Decode r.data.1 <;> rfl

theorem C3_decode_failure_is_panic_witness :
    (b64Decode "!!!!" = none ∨
        pubkeyFromStr "11111111111111111111111111111111" = none) ∧
    accountFromRpc
        { data := ("!!!!", "base64"), executable := false, lamports := 5,
          owner := "11111111111111111111111111111111", rentEpoch := 7 }
      = none :=
  ⟨Or.inl rfl, C3_decode_failure_is_panic_never_default _ (Or.inl rfl)⟩

/-- C9: the blockhash decode step of get_latest_blockhash fails with the
wrong-length error whenever the base58-decoded byte length differs from 32,
and succeeds yielding exactly the decoded 32 bytes otherwise. -/
theorem C9_blockhash_length_gate (s : String) (height : Nat) (bs : List Nat)
    (hdec : b58Decode s = some bs) :
    (bs.length ≠ 32 →
      get_latest_blockhash (blockhashTransport s height)
        = .error (.blockhashWrongLength bs.length)) ∧
    (bs.length = 32 →
      get_latest_blockhash (blockhashTransport s height) = .ok bs) := by
  have hred : get_latest_blockhash (blockhashTransport s height)
      = match b58Decode s with
        | none => .error .blockhashNotBase58
        | some bs =>
          if bs.length = 32 then .ok bs
          else .error (.blockhashWrongLength bs.length) := rfl
  rw [hred, hdec]
  constructor
  · intro hne
    simp [hne]
  · intro he
    simp [he]

theorem C9_blockhash_length_gate_witness :
    b58Decode "11111111111111111111111111111111"
        = some (List.replicate 32 0) ∧
    get_latest_blockhash
        (blockhashTransport "11111111111111111111111111111111" 100)
      = .ok (List.replicate 32 0) :=
  ⟨rfl,
    (C9_blockhash_length_gate "11111111111111111111111111111111" 100
        (List.replicate 32 0) rfl).2 (by simp)⟩

theorem foldl_queuePush (es : List AsyncWalletEvent) :
    ∀ acc : EventQueue, es.foldl queuePush acc = acc ++ es := by
  induction es with
  | nil => intro acc; simp
  | cons e rest ih =>
    intro acc
    simp only [List.foldl_cons, ih, queuePush]
    simp

theorem drainLoop_eq_reverse :
    ∀ (fuel : Nat) (q : EventQueue), q.length ≤ fuel →
      drainLoop fuel q = q.reverse := by
  intro fuel
  induction fuel with
  | zero =>
    intro q hq
    rw [Nat.le_zero, List.length_eq_zero] at hq
    subst hq
    rfl
  | succ n ih =>
    intro q hq
    rcases List.eq_nil_or_concat q with rfl | ⟨ys, e, rfl⟩
    · rfl
    · have hys : ys.length ≤ n := by
        simpa [Nat.succ_le_succ_iff] using hq
      simp only [drainLoop, queuePop, List.getLast?_concat, List.dropLast_concat]
      simp only [List.concat_eq_append, List.getLast?_concat, List.dropLast_concat]
      simp [ih ys hys]

/-- C4 counterexample: pushing the completion for "AddrFirst" and then the
completion for "AddrSecond" makes the first pop return the second-pushed
event, so the queue is drained last-in-first-out, not in the order
produced. -/
theorem C4_fifo_counterexample :
    (queuePop (queuePush (queuePush []
          (.connectionCompleted (.ok "AddrFirst")))
          (.connectionCompleted (.ok "AddrSecond")))).2
      = some (.connectionCompleted (.ok "AddrSecond")) ∧
    AsyncWalletEvent.connectionCompleted (Except.ok "AddrSecond")
      ≠ .connectionCompleted (.ok "AddrFirst") := by
  refine ⟨rfl, ?_⟩
  decide

/-- C4 amended: the poll loop drains the async wallet event queue in reverse
order of production (Vec::push at the back, Vec::pop from the back: a stack),
and across the whole run no pushed event is dropped and none is delivered
twice — a full drain of the events pushed in order es delivers exactly the
list es reversed. -/
theorem C4_drain_is_reverse_exactly_once (es : List AsyncWalletEvent) :
    drainAll (es.foldl queuePush []) = es.reverse := by
  rw [foldl_queuePush, List.nil_append]
  exact drainLoop_eq_reverse es.length es le_rfl

theorem C4_drain_is_reverse_witness :
    drainAll (([.connectionCompleted (.ok "AddrFirst"),
        .connectionCompleted (.ok "AddrSecond")] :
          List AsyncWalletEvent).foldl queuePush [])
      = [.connectionCompleted (.ok "AddrSecond"),
         .connectionCompleted (.ok "AddrFirst")] :=
  (C4_drain_is_reverse_exactly_once
      [.connectionCompleted (.ok "AddrFirst"),
       .connectionCompleted (.ok "AddrSecond")]).trans rfl

/-- C5 counterexample: a connect attempt completing with the failure "boom"
is consumed by the poll step, which emits no event at all and leaves the
wallet unchanged — the failure is swallowed (only logged), with no Failed
transition, though the attempt no longer looks pending. -/
theorem C5_failed_connect_silent_counterexample :
    async_wallet_event_system
        [.connectionCompleted (.error "boom")] ⟨none⟩
      = ([], ⟨none⟩, []) := rfl

/-- C5 amended: whenever the event at the back of the queue is a connect
completion carrying a failure, the poll step removes it from the queue but
emits no wallet event and leaves the wallet state unchanged; the failure is
observable only in the debug log. -/
theorem C5_failed_connect_logged_only (q : EventQueue) (w : Wallet)
    (err : String) :
    async_wallet_event_system
        (q ++ [.connectionCompleted (.error err)]) w
      = (q, w, []) := by
  simp [async_wallet_event_system, queuePop, List.getLast?_concat,
    List.dropLast_concat]

theorem C5_failed_connect_logged_only_witness :
    async_wallet_event_system
        ([] ++ [.connectionCompleted (.error "boom")]) ⟨none⟩
      = ([], ⟨none⟩, []) :=
  C5_failed_connect_logged_only [] ⟨none⟩ "boom"

theorem pollStep_queue (q : EventQueue) (w : Wallet) :
    (async_wallet_event_system q w).1 = q.dropLast := by
  unfold async_wallet_event_system queuePop
  rcases List.getLast? q with _ | ev
  · rfl
  · rcases ev with ⟨res⟩
    rcases res with err | addr <;> rfl

theorem iterateSystem_queue_length (k : Nat) :
    ∀ (q : EventQueue) (w : Wallet),
      ((iterateSystem k q w).1).length = q.length - k := by
  induction k with
  | zero => intro q w; simp [iterateSystem]
  | succ n ih =>
    intro q w
    show ((iterateSystem n (async_wallet_event_system q w).1
        (async_wallet_event_system q w).2.1).1).length = q.length - (n + 1)
    rw [ih, pollStep_queue, List.length_dropLast]
    omega

/-- C10: one invocation of the polling step removes at most one event from
the queue (the length drops by at most one), and k invocations with k below
the number of queued events leave the queue nonempty, so n queued events need
at least n invocations before the queue can be empty. -/
theorem C10_poll_removes_at_most_one (q : EventQueue) (w : Wallet) :
    q.length ≤ ((async_wallet_event_system q w).1).length + 1 ∧
    (∀ k, k < q.length → (iterateSystem k q w).1 ≠ []) := by
  constructor
  · rw [pollStep_queue, List.length_dropLast]
    omega
  · intro k hk
    have hlen := iterateSystem_queue_length k q w
    intro hnil
    rw [hnil] at hlen
    simp at hlen
    omega

theorem C10_poll_removes_at_most_one_witness :
    (1 : Nat) <
        ([AsyncWalletEvent.connectionCompleted (.ok "A"),
          .connectionCompleted (.ok "B")] : EventQueue).length ∧
    (iterateSystem 1
        [AsyncWalletEvent.connectionCompleted (.ok "A"),
         .connectionCompleted (.ok "B")] ⟨none⟩).1 ≠ [] :=
  ⟨by simp,
    (C10_poll_removes_at_most_one
        [.connectionCompleted (.ok "A"), .connectionCompleted (.ok "B")]
        ⟨none⟩).2 1 (by simp)⟩

end BevySolana
